import Mathlib

/-!
# Verification of the Ayurveda conversation/tool-orchestration core

Shallow embedding of the conversation context manager, conversation memory,
tool usage tracker, recommendation ranking and agent orchestration glue of
the repository, together with proofs settling the specification claims.

Modelling conventions:
* Python floats for response times and scores are modelled as rationals.
* `datetime.utcnow()` timestamps are modelled as a strictly increasing natural
  counter carried by each stateful object (each mutating call happens at a
  fresh instant); ISO timestamp string comparison agrees with this order.
* Python dicts that are iterated are modelled as insertion-ordered
  association lists; Python sets as lists with insert-if-absent.
* The external tokenizer (`tiktoken`) is modelled as an arbitrary function
  `String → Nat` carried by the object that owns it.
* Fallible code returns `Except PyError`; a Python exception corresponds to
  the `.error` constructor.
-/

namespace Ayurveda

/-- A Python exception, as far as the claims need to distinguish them. -/
inductive PyError where
  | attributeError (onObject : String) (missingAttr : String)
  | typeError (msg : String)
  | valueError (msg : String)
  | keyError (key : String)
deriving DecidableEq, Repr

/-! ## ContextManager (src/back/service/context_manager.py) -/

/-- One entry of `ContextManager.conversation_history`: the dict built in
`add_message` (role, content, timestamp, tokens; the metadata kwargs are not
consulted by any pruning or context code, so they are omitted).  Timestamps
are modelled as distinct naturals (see module header). -/
structure Msg where
  role : String
  content : String
  timestamp : Nat
  tokens : Nat
deriving DecidableEq, Repr

/-- Model of `ContextManager` state: configuration plus mutable fields.  `encoder`
models the external tiktoken encoder (`_count_tokens`); `clock` is the
timestamp counter. -/
structure ContextManager where
  max_tokens : Nat
  max_messages : Nat
  min_recent_messages : Nat
  encoder : String → Nat
  conversation_history : List Msg
  context_summary : String
  clock : Nat

/-- The last `n` elements of a list (`l[len-n:]`). -/
def takeLast (n : Nat) (l : List α) : List α := l.drop (l.length - n)

/-- Python's negative-index slice `l[-n:]` for a nonnegative `n`:
for `n = 0` it is `l[0:] = l` (not the empty list). -/
def pySliceLast (n : Nat) (l : List α) : List α :=
  if n = 0 then l else takeLast n l

/-- Stable insertion of a message into a timestamp-descending list: the new
element goes after all elements with a greater-or-equal timestamp, which is
how Python's stable `sorted(..., reverse=True)` orders ties. -/
def insertTsDesc (m : Msg) : List Msg → List Msg
  | [] => [m]
  | x :: xs => if m.timestamp ≤ x.timestamp then x :: insertTsDesc m xs else m :: x :: xs

/-- Model of `sorted(msgs, key=timestamp, reverse=True)` (stable). -/
def sortTsDesc (l : List Msg) : List Msg := l.foldl (fun acc m => insertTsDesc m acc) []

/-- Sum of the `tokens` field over a history
(`sum(m.get('tokens', 0) for m in history)`). -/
def totalTokens (l : List Msg) : Nat := (l.map (·.tokens)).sum

/-- Model of `system_msgs` local of `_prune_history`. -/
def systemMsgs (l : List Msg) : List Msg := l.filter (fun m => m.role == "system")

/-- Model of `other_msgs` local of `_prune_history` (membership tests are the Python
`in` checks against `system_msgs` and `recent_msgs = l[-min_recent:]`). -/
def otherMsgs (minr : Nat) (l : List Msg) : List Msg :=
  l.filter (fun m => decide (m ∉ systemMsgs l ∧ m ∉ pySliceLast minr l))

/-- Model of `keep_count` local of `_prune_history`:
`min(len(other_msgs), max(0, max_messages - len(system_msgs) - min_recent))`
(truncated ℕ subtraction is exactly `max(0, ·)`). -/
def keepCount (maxm minr : Nat) (l : List Msg) : Nat :=
  min (sortTsDesc (otherMsgs minr l)).length (maxm - (systemMsgs l).length - minr)

/-- The reassembled history of the message-count limit branch:
`system_msgs + other_msgs_sorted[:keep_count] + recent_msgs`. -/
def countPruneRebuild (maxm minr : Nat) (l : List Msg) : List Msg :=
  systemMsgs l ++ (sortTsDesc (otherMsgs minr l)).take (keepCount maxm minr l)
    ++ pySliceLast minr l

/-- First half of `ContextManager._prune_history`: the message-count limit.
If the history exceeds `max_messages`, keep all system messages, the
`l[-min_recent:]` tail, and as many of the remaining messages (sorted by
timestamp descending) as fit in `max_messages - |system| - min_recent`,
reassembled in that order. -/
def countPrune (maxm minr : Nat) (l : List Msg) : List Msg :=
  if l.length > maxm then countPruneRebuild maxm minr l else l

/-- The index the token-budget loop of `_prune_history` removes next: the
first `i` with a non-system role and `i < len - min_recent` (over ℤ in
Python; `i + minr < total` over ℕ). -/
def removableIdxAux (minr total : Nat) : Nat → List Msg → Option Nat
  | _, [] => none
  | i, m :: rest =>
    if m.role ≠ "system" ∧ i + minr < total then some i
    else removableIdxAux minr total (i + 1) rest

/-- See `removableIdxAux`; `none` means the `for … else: break` path. -/
def removableIdx (minr : Nat) (l : List Msg) : Option Nat :=
  removableIdxAux minr l.length 0 l

/-- Second half of `_prune_history`: while the total token count exceeds
`max_tokens` and more than one message remains, remove the message at
`removableIdx`, stopping when none exists.  The loop removes one element per
iteration, so `fuel = l.length` (used by `tokenPrune`) is exact. -/
def tokenPruneAux (maxT minr : Nat) : Nat → List Msg → List Msg
  | 0, l => l
  | fuel + 1, l =>
    if totalTokens l > maxT ∧ l.length > 1 then
      match removableIdx minr l with
      | some i => tokenPruneAux maxT minr fuel (l.eraseIdx i)
      | none => l
    else l

/-- The token-budget loop of `_prune_history`. -/
def tokenPrune (maxT minr : Nat) (l : List Msg) : List Msg :=
  tokenPruneAux maxT minr l.length l

/-- Model of `ContextManager._prune_history`. -/
def ContextManager.prune_history (cm : ContextManager) : ContextManager :=
  let pruned := tokenPrune cm.max_tokens cm.min_recent_messages
    (countPrune cm.max_messages cm.min_recent_messages cm.conversation_history)
  { cm with conversation_history := pruned }

/-- The message dict `add_message` appends. -/
def ContextManager.newMessage (cm : ContextManager) (role content : String) : Msg :=
  { role := role, content := content, timestamp := cm.clock,
    tokens := cm.encoder content }

/-- Model of `ContextManager.add_message`: append the new message dict (token count
via the encoder, timestamp from the clock), then prune. -/
def ContextManager.add_message (cm : ContextManager) (role content : String) :
    ContextManager :=
  ContextManager.prune_history
    { cm with
        conversation_history := cm.conversation_history ++ [cm.newMessage role content],
        clock := cm.clock + 1 }

/-- An entry of the list returned by `ContextManager.get_context`: either one
of the stored message dicts or the synthetic summary dict. -/
inductive CtxEntry where
  | msg (m : Msg)
  | summary (content : String)
deriving DecidableEq, Repr

/-- Model of `ContextManager._get_recent_messages` (with the default
`n = max_messages`): `history[-min(n, len):]`. -/
def ContextManager.get_recent_messages (cm : ContextManager) : List Msg :=
  pySliceLast (min cm.max_messages cm.conversation_history.length)
    cm.conversation_history

/-- Model of `ContextManager.get_context`: all system messages, then the summary turn
(if requested and non-empty), then the recent messages (if requested). -/
def ContextManager.get_context (cm : ContextManager)
    (include_recent include_summary : Bool) : List CtxEntry :=
  ((cm.conversation_history.filter (fun m => m.role == "system")).map CtxEntry.msg)
    ++ (if include_summary ∧ cm.context_summary ≠ "" then
          [CtxEntry.summary ("Conversation summary: " ++ cm.context_summary)]
        else [])
    ++ (if include_recent then cm.get_recent_messages.map CtxEntry.msg else [])

/-- A fresh `ContextManager` as `__init__` builds it. -/
def ContextManager.init (maxT maxM minR : Nat) (enc : String → Nat) :
    ContextManager :=
  { max_tokens := maxT, max_messages := maxM, min_recent_messages := minR,
    encoder := enc, conversation_history := [], context_summary := "",
    clock := 0 }

/-- Apply a sequence of `add_message` calls. -/
def ContextManager.addAll (cm : ContextManager) (calls : List (String × String)) :
    ContextManager :=
  calls.foldl (fun s c => s.add_message c.1 c.2) cm

/-! ### Derived counting notions used by the pruning claims -/

/-- Number of non-system turns retained in a history. -/
def nonSystemCount (l : List Msg) : Nat := l.countP (fun m => m.role != "system")

/-- The run refuting C3 as stated: configuration `max_messages = 5,
`min_recent_messages = 3`, six turns already added, then a system turn. -/
def c3pre : ContextManager :=
  (ContextManager.init 10000 5 3 (fun _ => 1)).addAll
    [("system", "s"), ("user", "u1"), ("user", "u2"), ("user", "u3"),
     ("user", "u4"), ("user", "u5")]

/-! ## ToolUsageTracker (src/back/service/tool_usage_tracker.py) -/

/-- Python truthiness of an optional string (`if user_id:`, `… and error`). -/
def pyTruthy : Option String → Bool
  | none => false
  | some s => s ≠ ""

/-- Pointwise update of a `defaultdict`-like total map. -/
def updFn (f : String → α) (k : String) (v : α) : String → α :=
  fun x => if x = k then v else f x

/-- Insertion-ordered dict write `d[k] = v`: overwrite in place, else append
(CPython dict semantics). -/
def dictSet [DecidableEq κ] (k : κ) (v : β) : List (κ × β) → List (κ × β)
  | [] => [(k, v)]
  | (k', v') :: rest =>
    if k' = k then (k, v) :: rest else (k', v') :: dictSet k v rest

/-- Dict lookup `d.get(k)`. -/
def dictGet [DecidableEq κ] (k : κ) : List (κ × β) → Option β
  | [] => none
  | (k', v') :: rest => if k' = k then some v' else dictGet k rest

/-- Python `set.add` (iteration order is not observed by any claim). -/
def setAdd (x : String) (s : List String) : List String :=
  if x ∈ s then s else s ++ [x]

/-- Python slice `l[-n:]` for positive `n` (used with `n = 1000`). -/
def lastK (n : Nat) (l : List ℚ) : List ℚ := l.drop (l.length - n)

/-- A `user_sessions[user_id]` record (`tool_sequences` is written but never
read by the source). -/
structure UserSession where
  first_seen : Nat
  last_seen : Nat
  tool_usage : List (String × Nat)
  tool_sequences : List String
  session_count : Nat
  current_session_start : Nat
deriving DecidableEq, Repr

/-- An `article_metrics[article_id]` record. -/
structure ArticleMetricEntry where
  views : Nat
  likes : Nat
  shares : Nat
  saves : Nat
  avg_read_time : ℚ
  last_viewed : Option Nat
deriving DecidableEq, Repr

/-- The zero-initialised article record built on first sight of an id. -/
def ArticleMetricEntry.init0 : ArticleMetricEntry :=
  { views := 0, likes := 0, shares := 0, saves := 0, avg_read_time := 0,
    last_viewed := none }

/-- The `metadata` dict keys `log_tool_use` reads. -/
structure ToolMetadata where
  article_id : Option String
  interaction_type : Option String
  read_time_seconds : Option ℚ
deriving DecidableEq, Repr

/-- Model of `ToolUsageTracker` state.  The `metrics` defaultdicts are total maps with
the defaultdict default; key presence in `metrics['invocations']` (used by
`get_tool_metrics`) coincides with a nonzero count since the only writer is
the `+= 1` in `log_tool_use`.  `now` is the utcnow counter. -/
structure ToolUsageTracker where
  invocations : String → Nat
  errors : String → Nat
  response_times : String → List ℚ
  last_used : String → Option Nat
  user_engagement : String → List String
  concurrent_usage : String → List String
  user_sessions : List (String × UserSession)
  article_metrics : List (String × ArticleMetricEntry)
  last_tool_used : List (String × String)
  now : Nat

/-- A fresh tracker (no snapshot on disk). -/
def ToolUsageTracker.init : ToolUsageTracker :=
  { invocations := fun _ => 0, errors := fun _ => 0,
    response_times := fun _ => [], last_used := fun _ => none,
    user_engagement := fun _ => [], concurrent_usage := fun _ => [],
    user_sessions := [], article_metrics := [], last_tool_used := [],
    now := 0 }

/-- The article-interaction block of `log_tool_use` (guarded there by
`tool_name == 'article_recommender' and metadata and 'article_id' in
metadata`): get-or-init the entry, bump `views`, stamp `last_viewed`, bump
the counter matching `interaction_type`, and fold `read_time_seconds` into
`avg_read_time` by the incremental mean over the post-increment view count. -/
def articleInteraction (timestamp : Nat) (md : ToolMetadata)
    (metrics : List (String × ArticleMetricEntry)) :
    List (String × ArticleMetricEntry) :=
  match md.article_id with
  | none => metrics
  | some aid =>
    let base := (dictGet aid metrics).getD ArticleMetricEntry.init0
    let e1 := { base with views := base.views + 1, last_viewed := some timestamp }
    let e2 :=
      if md.interaction_type = some "like" then { e1 with likes := e1.likes + 1 }
      else if md.interaction_type = some "share" then { e1 with shares := e1.shares + 1 }
      else if md.interaction_type = some "save" then { e1 with saves := e1.saves + 1 }
      else e1
    let e3 :=
      match md.read_time_seconds with
      | some rt =>
        { e2 with avg_read_time :=
            (e2.avg_read_time * ((e2.views : ℚ) - 1) + rt) / (e2.views : ℚ) }
      | none => e2
    dictSet aid e3 metrics

/-- The unconditional part of `log_tool_use`: invocation count, last-used
timestamp, error count (when `not success and error`), response-time window
append with the `[-1000:]` cap. -/
def logBasics (t : ToolUsageTracker) (tool_name : String) (success : Bool)
    (error : Option String) (response_time : Option ℚ) : ToolUsageTracker :=
  let timestamp := t.now
  let t1 := { t with
    now := t.now + 1,
    invocations := updFn t.invocations tool_name (t.invocations tool_name + 1),
    last_used := updFn t.last_used tool_name (some timestamp) }
  let t2 :=
    if ¬ success ∧ pyTruthy error then
      { t1 with errors := updFn t1.errors tool_name (t1.errors tool_name + 1) }
    else t1
  match response_time with
  | some rt =>
    { t2 with response_times := (updFn t2.response_times tool_name
        (lastK 1000 (t2.response_times tool_name ++ [rt]))) }
  | none => t2

/-- The `if user_id:` block of `log_tool_use` up to (not including) the
article branch: engagement set, user-session init/update, co-occurrence pair,
`last_tool_used`.  `timestamp` is the instant captured at entry. -/
def logUserSide (t : ToolUsageTracker) (tool_name uid : String)
    (timestamp : Nat) : ToolUsageTracker :=
  let t4 := { t with user_engagement := (updFn t.user_engagement tool_name
    (setAdd uid (t.user_engagement tool_name))) }
  let session :=
    match dictGet uid t4.user_sessions with
    | some s => s
    | none =>
      { first_seen := timestamp, last_seen := timestamp, tool_usage := [],
        tool_sequences := [], session_count := 0,
        current_session_start := timestamp }
  let session' := { session with
    last_seen := timestamp,
    tool_usage := (dictSet tool_name
      ((dictGet tool_name session.tool_usage).getD 0 + 1) session.tool_usage) }
  let t5 := { t4 with user_sessions := dictSet uid session' t4.user_sessions }
  let t6 :=
    match dictGet uid t5.last_tool_used with
    | some lt =>
      if lt ≠ tool_name then
        { t5 with concurrent_usage := (updFn t5.concurrent_usage tool_name
            (setAdd lt (t5.concurrent_usage tool_name))) }
      else t5
    | none => t5
  { t6 with last_tool_used := dictSet uid tool_name t6.last_tool_used }

/-- Model of `ToolUsageTracker.log_tool_use`. -/
def ToolUsageTracker.log_tool_use (t : ToolUsageTracker) (tool_name : String)
    (user_id : Option String) (success : Bool) (error : Option String)
    (response_time : Option ℚ) (metadata : Option ToolMetadata) :
    ToolUsageTracker :=
  let timestamp := t.now
  let t3 := logBasics t tool_name success error response_time
  match user_id with
  | none => t3
  | some uid =>
    if uid = "" then t3
    else
      let t7 := logUserSide t3 tool_name uid timestamp
      if tool_name = "article_recommender" then
        match metadata with
        | some md =>
          { t7 with article_metrics := articleInteraction timestamp md t7.article_metrics }
        | none => t7
      else t7

/-- Stable ascending insertion used to model Python's `sorted` on the
response-time window. -/
def insertQAsc (x : ℚ) : List ℚ → List ℚ
  | [] => [x]
  | y :: ys => if y ≤ x then y :: insertQAsc x ys else x :: y :: ys

/-- Model of `sorted(response_times)`. -/
def sortQAsc (l : List ℚ) : List ℚ := l.foldl (fun acc x => insertQAsc x acc) []

/-- The dict `get_tool_metrics` returns for one tool. -/
structure ToolMetricsReport where
  invocations : Nat
  errors : Nat
  error_rate : ℚ
  avg_response_time : ℚ
  p95_response_time : ℚ
  unique_users : Nat
  frequently_used_with : List String
  last_used : Option Nat
deriving DecidableEq, Repr

/-- Model of `ToolUsageTracker.get_tool_metrics` for a named tool (`none` is the
early-return `{}` when the tool was never logged).  `int(n * 0.95)` on a
Python float is `⌊0.95·n⌋ = n*95/100` for the window sizes involved. -/
def ToolUsageTracker.get_tool_metrics (t : ToolUsageTracker) (tool_name : String) :
    Option ToolMetricsReport :=
  if t.invocations tool_name = 0 then none
  else
    let response_times := t.response_times tool_name
    some {
      invocations := t.invocations tool_name,
      errors := t.errors tool_name,
      error_rate := (t.errors tool_name : ℚ) / ((Nat.max 1 (t.invocations tool_name) : Nat) : ℚ),
      avg_response_time :=
        if response_times ≠ [] then response_times.sum / (response_times.length : ℚ)
        else 0,
      p95_response_time :=
        if response_times ≠ [] then
          (sortQAsc response_times).getD (response_times.length * 95 / 100) 0
        else 0,
      unique_users := (t.user_engagement tool_name).length,
      frequently_used_with := (t.concurrent_usage tool_name).take 10,
      last_used := t.last_used tool_name }

/-- Stable descending insertion on scored article ids (Python's stable
`sorted(..., key=score, reverse=True)`). -/
def insertScoreDesc (x : String × ℚ) : List (String × ℚ) → List (String × ℚ)
  | [] => [x]
  | y :: ys => if x.2 ≤ y.2 then y :: insertScoreDesc x ys else x :: y :: ys

/-- Model of `sorted(article_scores, key=lambda x: x[1], reverse=True)`. -/
def sortScoresDesc (l : List (String × ℚ)) : List (String × ℚ) :=
  l.foldl (fun acc x => insertScoreDesc x acc) []

/-- The viewed-articles set comprehension of `get_article_recommendations`:
it iterates the KEYS of `user_sessions[user_id]['tool_usage']` (a dict
`tool_name → count`), so `tool_use` is a `str`; when a key equals
`'article_recommender'`, `tool_use.get('metadata', {})` raises
`AttributeError: 'str' object has no attribute 'get'`. -/
def viewedArticles (t : ToolUsageTracker) (user_id : String)
    (exclude_viewed : Bool) : Except PyError (List String) :=
  match dictGet user_id t.user_sessions with
  | some s =>
    if exclude_viewed then
      if s.tool_usage.any (fun p => p.1 = "article_recommender") then
        Except.error (PyError.attributeError "str" "get")
      else Except.ok []
    else Except.ok []
  | none => Except.ok []

/-- Python's binary `min` on rationals (`min(a, b) = a if a <= b else b`),
written with an explicit comparison so the kernel can evaluate it. -/
def qmin (a b : ℚ) : ℚ := if a ≤ b then a else b

/-- Popularity score of one article entry, then exponential time decay
(`days_old` in units of the `now` counter; `fromisoformat(None)` would raise
`TypeError`, which cannot happen for entries written by `log_tool_use`). -/
def articleScore (nowT : Nat) (m : ArticleMetricEntry) : Except PyError ℚ :=
  let score : ℚ := (m.likes : ℚ) * 2 + (m.shares : ℚ) * 3 + (m.saves : ℚ) * (5 / 2)
    + qmin ((m.views : ℚ) / 10) 10
  match m.last_viewed with
  | some tv => Except.ok (score * (19 / 20 : ℚ) ^ (nowT - tv))
  | none => Except.error (PyError.typeError "fromisoformat(None)")

/-- Model of `ToolUsageTracker.get_article_recommendations`. -/
def ToolUsageTracker.get_article_recommendations (t : ToolUsageTracker)
    (user_id : String) (limit : Nat) (exclude_viewed : Bool) :
    Except PyError (List (String × ℚ)) := do
  let viewed ← viewedArticles t user_id exclude_viewed
  let scores ← t.article_metrics.foldlM
    (fun (acc : List (String × ℚ)) p =>
      if p.1 ∈ viewed then pure acc
      else do
        let s ← articleScore t.now p.2
        pure (acc ++ [(p.1, s)]))
    []
  pure ((sortScoresDesc scores).take limit)

/-! ### Scenario state for claim C6 -/

/-- Scenario state: `log_tool_use("vector_store_search", success=True,
response_time=0.2)` three times, then once with `success=False,
error="timeout"` and no response time (0.2 = 1/5). -/
def c6state : ToolUsageTracker :=
  (((ToolUsageTracker.init.log_tool_use "vector_store_search" none true none
    (some (1/5)) none).log_tool_use "vector_store_search" none true none
    (some (1/5)) none).log_tool_use "vector_store_search" none true none
    (some (1/5)) none).log_tool_use "vector_store_search" none false
    (some "timeout") none none

/-- The report the scenario must produce. -/
def c6report : ToolMetricsReport :=
  { invocations := 4, errors := 1, error_rate := 1/4,
    avg_response_time := 1/5, p95_response_time := 1/5,
    unique_users := 0, frequently_used_with := [], last_used := some 3 }

/-- The per-article update C7 describes, following the claim's words: views
incremented by exactly 1; likes/shares/saves incremented according to
`interaction_type`; `avg_read_time` updated by
`new_avg = (old_avg*(n-1) + new_sample)/n` (with `n` the post-increment view
count) when `read_time_seconds` is present; `last_viewed` stamped. -/
def specArticleUpdate (timestamp : Nat) (md : ToolMetadata)
    (old : ArticleMetricEntry) : ArticleMetricEntry :=
  { views := old.views + 1,
    likes := old.likes + (if md.interaction_type = some "like" then 1 else 0),
    shares := old.shares + (if md.interaction_type = some "share" then 1 else 0),
    saves := old.saves + (if md.interaction_type = some "save" then 1 else 0),
    avg_read_time :=
      (match md.read_time_seconds with
       | some rt =>
         (old.avg_read_time * (((old.views + 1 : Nat) : ℚ) - 1) + rt) /
           ((old.views + 1 : Nat) : ℚ)
       | none => old.avg_read_time),
    last_viewed := some timestamp }

/-! ## RecommendationService (src/back/service/recommendation_service.py) -/

/-- The two fixed keyword sets of `classify_recommendation`. -/
def food_keywords : List String :=
  ["food", "diet", "meal", "eat", "eating", "nutrition", "consume", "dish",
   "recipe", "fruit", "vegetable", "spice", "herb", "grain", "dairy", "ghee",
   "oil", "breakfast", "lunch", "dinner", "snack", "drink", "beverage", "tea"]

/-- See `food_keywords`. -/
def lifestyle_keywords : List String :=
  ["exercise", "yoga", "meditation", "sleep", "routine", "habit", "practice",
   "activity", "rest", "massage", "bath", "oil", "abhyanga", "lifestyle",
   "morning", "evening", "ritual", "cleanse", "detox", "breathing", "pranayama"]

/-- Python's substring test `pat in s` (for the non-empty keywords used
here). -/
def strContains (s pat : String) : Bool := (s.splitOn pat).length != 1

/-- Model of `classify_recommendation`: keyword-count voting, ties to `general`. -/
def classify_recommendation (content : String) : String :=
  let content_lower := content.toLower
  let food_count := (food_keywords.filter (fun k => strContains content_lower k)).length
  let lifestyle_count :=
    (lifestyle_keywords.filter (fun k => strContains content_lower k)).length
  if food_count > lifestyle_count then "food"
  else if lifestyle_count > food_count then "lifestyle"
  else "general"

/-- A vector-store document as `_rank_recommendations` consumes it: the page
content plus the metadata fields the ranking reads.  `docId` is the resolved
scoring-dict key `doc.metadata.get('id') or id(doc)`; `source` is
`metadata.get('source')` (the dosha/category/source_url metadata the
formatter copies verbatim are omitted — no claim reads them). -/
structure Doc where
  docId : Nat
  page_content : String
  source : Option String
deriving DecidableEq, Repr

/-- One value of the `scores` dict of `_rank_recommendations`. -/
structure ScoreEntry where
  doc : Doc
  score : ℚ
  source : String
deriving DecidableEq, Repr

/-- First scoring pass: each base result at rank `i` gets `1.0 - 0.1*i`,
tagged `source='base'`. -/
def baseScores (base : List Doc) : List (Nat × ScoreEntry) :=
  base.enum.foldl
    (fun acc p =>
      dictSet p.2.docId ⟨p.2, 1 - (p.1 : ℚ) * (1 / 10), "base"⟩ acc) []

/-- Second pass: each personal result at rank `i` adds
`personalization_weight * (1.0 - 0.1*i)` to an existing entry (tag `both`),
or inserts a fresh entry scored by the weighted decay alone (tag
`personal`). -/
def boostPersonal (w : ℚ) (personal : List Doc)
    (scores : List (Nat × ScoreEntry)) : List (Nat × ScoreEntry) :=
  personal.enum.foldl
    (fun acc p =>
      match dictGet p.2.docId acc with
      | some e =>
        dictSet p.2.docId ⟨e.doc, e.score + w * (1 - (p.1 : ℚ) * (1 / 10)), "both"⟩ acc
      | none =>
        dictSet p.2.docId ⟨p.2, w * (1 - (p.1 : ℚ) * (1 / 10)), "personal"⟩ acc)
    scores

/-- Stable descending insertion on score entries (Python's stable
`sorted(..., key=score, reverse=True)`). -/
def insertEntryDesc (x : ScoreEntry) : List ScoreEntry → List ScoreEntry
  | [] => [x]
  | y :: ys => if x.score ≤ y.score then y :: insertEntryDesc x ys else x :: y :: ys

/-- Model of `sorted(scores.values(), key=lambda x: x['score'], reverse=True)`. -/
def sortEntriesDesc (l : List ScoreEntry) : List ScoreEntry :=
  l.foldl (fun acc x => insertEntryDesc x acc) []

/-- One formatted recommendation dict (the fields the claims read). -/
structure Recommendation where
  content : String
  source : String
  relevance_score : ℚ
  classification : String
  recommendation_source : String
deriving DecidableEq, Repr

/-- Model of `RecommendationService._rank_recommendations`. -/
def rank_recommendations (base_results personal_results : List Doc)
    (personalization_weight : ℚ) : List Recommendation :=
  let scores := boostPersonal personalization_weight personal_results
    (baseScores base_results)
  let ranked := sortEntriesDesc (scores.map Prod.snd)
  ranked.map (fun e =>
    { content := e.doc.page_content,
      source := e.doc.source.getD "Unknown",
      relevance_score := e.score,
      classification := classify_recommendation e.doc.page_content,
      recommendation_source := e.source })

/-! ## ConversationMemory (src/back/service/conversation_memory.py) -/

/-- A LangChain chat message as stored in `chat_memory.messages` (type tag
plus content; `additional_kwargs` is never read by the claims). -/
structure ChatMsg where
  msgType : String
  content : String
deriving DecidableEq, Repr

/-- A `MessageMetadata` entry — the fields `save_context` sets that any
claim reads (timestamps and generated message ids are not). -/
structure MsgMeta where
  user_id : String
  session_id : String
  role : String
deriving DecidableEq, Repr

/-- Model of `ConversationMemory` state.  `input_key`/`output_key` are the inherited
LangChain `ConversationBufferMemory` fields; both default to `None` and no
construction in the repository overrides them.  `memory_key` is the memory
variable name ("history" by default, "chat_history" in `switch_session`). -/
structure ConversationMemory where
  user_id : String
  session_id : String
  input_key : Option String
  output_key : Option String
  memory_key : String
  max_messages : Nat
  max_tokens : Option Nat
  enable_summarization : Bool
  messages : List ChatMsg
  metadata_store : List MsgMeta
deriving DecidableEq, Repr

/-- Python truthiness of a plain string. -/
def pyStrTruthy (s : String) : Bool := s ≠ ""

/-- LangChain's `get_prompt_input_key` (external contract): the single key
of `inputs` that is not the memory variable and not "stop"; otherwise
`ValueError`. -/
def getPromptInputKey (inputs : List (String × String)) (memory_key : String) :
    Except PyError String :=
  match (inputs.map Prod.fst).filter (fun k => decide (k ≠ memory_key ∧ k ≠ "stop")) with
  | [k] => Except.ok k
  | _ => Except.error (PyError.valueError "One input key expected")

/-- LangChain `BaseChatMemory._get_input_output` (external contract): resolve
the input value via `input_key` or `get_prompt_input_key`, and the output
value via `output_key` or the unique entry of `outputs`. -/
def getInputOutput (m : ConversationMemory)
    (inputs outputs : List (String × String)) : Except PyError (String × String) := do
  let ik ← match m.input_key with
    | some k => Except.ok k
    | none => getPromptInputKey inputs m.memory_key
  let input_str ← match dictGet ik inputs with
    | some v => Except.ok v
    | none => Except.error (PyError.keyError ik)
  let output_str ← match m.output_key with
    | some k =>
      (match dictGet k outputs with
       | some v => Except.ok v
       | none => Except.error (PyError.keyError k))
    | none =>
      (match outputs with
       | [p] => Except.ok p.2
       | _ => Except.error (PyError.valueError "One output key expected"))
  pure (input_str, output_str)

/-- Model of `ConversationMemory._process_for_summarization`, with the summarizer's
`process_messages` (an LLM call) as the oracle `f`.  When the summarizer
shrank the list, the code calls `self.clear()` and then rebuilds via
`chat_memory.add_ai_message(content=…, metadata=…)` — a call signature
LangChain's `ChatMessageHistory` does not accept, so the first loop
iteration raises `TypeError`, the blanket `except` swallows it, and the
memory is left cleared (messages and metadata both empty, which the clear
already made so). -/
def process_for_summarization (f : List ChatMsg → List ChatMsg)
    (m : ConversationMemory) : ConversationMemory :=
  if m.enable_summarization then
    let processed := f m.messages
    if processed.length < m.messages.length then
      { m with messages := [], metadata_store := [] }
    else m
  else m

/-- Token total of the chat buffer under the gpt2 tokenizer oracle. -/
def totalChatTokens (tokenizer : String → Nat) (msgs : List ChatMsg) : Nat :=
  (msgs.map (fun msg => tokenizer msg.content)).sum

/-- The token-pruning loop of `_prune_messages`: drop the oldest message
PAIR while over budget and more than one message remains (fuel =
list length is enough since each step drops two). -/
def tokenPrunePairsAux (tokenizer : String → Nat) (maxT : Nat) :
    Nat → List ChatMsg → List MsgMeta → List ChatMsg × List MsgMeta
  | 0, msgs, metas => (msgs, metas)
  | fuel + 1, msgs, metas =>
    if totalChatTokens tokenizer msgs ≤ maxT ∨ msgs.length ≤ 1 then (msgs, metas)
    else tokenPrunePairsAux tokenizer maxT fuel (msgs.drop 2) (metas.drop 2)

/-- Model of `ConversationMemory._prune_messages`; `tok` is `some tokenizer` when the
`transformers` import succeeds and `none` when it fails (token pruning
skipped). -/
def prune_messages (tok : Option (String → Nat)) (m : ConversationMemory) :
    ConversationMemory :=
  let m1 :=
    if m.messages.length > m.max_messages then
      let excess := m.messages.length - m.max_messages
      { m with messages := m.messages.drop excess,
               metadata_store := m.metadata_store.drop excess }
    else m
  match m1.max_tokens, tok with
  | some maxT, some tokenizer =>
    let pruned := tokenPrunePairsAux tokenizer maxT m1.messages.length
      m1.messages m1.metadata_store
    { m1 with messages := pruned.1, metadata_store := pruned.2 }
  | _, _ => m1

/-- Model of `ConversationMemory.save_context`: parent `save_context` (append one
human and one AI message), then the metadata conditionals — note
`inputs.get(self.input_key, "")` with the default `input_key = None` looks
up the key `None` in a str-keyed dict and yields `""`, which is falsy, and
likewise for `output_key` — then summarization, pruning, and `_persist`
(disk write, exceptions swallowed). -/
def ConversationMemory.save_context (m : ConversationMemory)
    (f : List ChatMsg → List ChatMsg) (tok : Option (String → Nat))
    (inputs outputs : List (String × String)) :
    Except PyError ConversationMemory := do
  let io ← getInputOutput m inputs outputs
  let m1 := { m with messages :=
    m.messages ++ [⟨"HumanMessage", io.1⟩, ⟨"AIMessage", io.2⟩] }
  let human_message :=
    match m1.input_key with
    | none => ""
    | some k => (dictGet k inputs).getD ""
  let ai_message :=
    match m1.output_key with
    | none => ""
    | some k => (dictGet k outputs).getD ""
  let m2 :=
    if pyStrTruthy human_message then
      { m1 with metadata_store :=
          m1.metadata_store ++ [⟨m1.user_id, m1.session_id, "human"⟩] }
    else m1
  let m3 :=
    if pyStrTruthy ai_message then
      { m2 with metadata_store :=
          m2.metadata_store ++ [⟨m2.user_id, m2.session_id, "ai"⟩] }
    else m2
  pure (prune_messages tok (process_for_summarization f m3))

/-- Model of `ConversationMemory.__init__` followed by `_load_history`.  With no
`persist_dir` the guarded `if self.persist_dir:` block is skipped, so
`history_file` keeps its `None` default, and `_load_history`'s unguarded
`self.history_file.exists()` raises `AttributeError` — construction never
completes.  With a `persist_dir` and no snapshot on disk the state is
empty. -/
def conversationMemoryInit (user_id : String) (session_id : Option String)
    (persist_dir : Option String) (memory_key : String) :
    Except PyError ConversationMemory :=
  let sid :=
    match session_id with
    | some s => if s ≠ "" then s else "session_generated"
    | none => "session_generated"
  let history_file : Option String := persist_dir.map (fun d => d ++ "/history.json")
  match history_file with
  | none => Except.error (PyError.attributeError "NoneType" "exists")
  | some _ =>
    Except.ok
      { user_id := user_id, session_id := sid, input_key := none,
        output_key := none, memory_key := memory_key, max_messages := 20,
        max_tokens := some 4000, enable_summarization := true,
        messages := [], metadata_store := [] }

/-! ## AgentService (src/back/service/agent_service.py) -/

/-- The method names the `AgentService` class body defines.  `invoke` calls
`self._enhance_with_context` and `self._generate_response`, which are
defined nowhere in the repository. -/
def agentServiceMethods : List String :=
  ["__init__", "_add_system_context", "_initialize_tools",
   "_initialize_metrics", "get_article_metrics", "get_user_engagement",
   "get_article_recommendations", "_create_agent_executor", "invoke",
   "_process_tool_usage", "_generate_error_response", "switch_session",
   "get_conversation_history", "clear_conversation", "list_sessions"]

/-- The method names the `ToolUsageTracker` class body defines.  The
`invoke` error handler calls `record_invocation` and its success path calls
`get_stats`; neither exists. -/
def toolUsageTrackerMethods : List String :=
  ["__init__", "_load_usage_data", "_save_usage_data", "log_tool_use",
   "get_tool_metrics", "get_article_metrics", "get_user_engagement",
   "log_article_interaction", "get_article_recommendations",
   "export_usage_data"]

/-- Python attribute lookup `self.<name>` on an `AgentService`. -/
def getattrAgentService (name : String) : Except PyError Unit :=
  if name ∈ agentServiceMethods then Except.ok ()
  else Except.error (PyError.attributeError "AgentService" name)

/-- Python attribute lookup on the `ToolUsageTracker` instance. -/
def getattrTracker (name : String) : Except PyError Unit :=
  if name ∈ toolUsageTrackerMethods then Except.ok ()
  else Except.error (PyError.attributeError "ToolUsageTracker" name)

/-- Model of `AgentService.switch_session`: `self.memory._persist()` inside a
try/except (disk write, exceptions swallowed), then
`ConversationMemory(user_id, session_id, memory_key="chat_history",
return_messages=True)` — with no `persist_dir`, so construction raises (see
`conversationMemoryInit`) and the `self.memory` rebind never executes. -/
def AgentService.switch_session (user_id session_id : String) :
    Except PyError ConversationMemory :=
  conversationMemoryInit user_id (some session_id) none "chat_history"

/-- The `input_data` dict of `AgentService.invoke`, as far as `invoke`
reads it before failing. -/
structure InvokeInput where
  message : Option String
  session_id : Option String

/-- Model of `AgentService.invoke`: the try block increments a counter, optionally
switches session (which raises, see `AgentService.switch_session`), then
evaluates `self._enhance_with_context` — an attribute lookup that raises
`AttributeError` since the method does not exist (Python resolves the
attribute before evaluating call arguments).  Control passes to the
`except` handler, whose first statement evaluates
`self.usage_tracker.record_invocation` — another missing attribute — so an
`AttributeError` propagates out of `invoke` on every call. -/
def AgentService.invoke (user_id mem_session : String) (input : InvokeInput) :
    Except PyError Unit :=
  let tryResult : Except PyError Unit := do
    match input.session_id with
    | some sid =>
      if sid ≠ mem_session then
        let _ ← AgentService.switch_session user_id sid
        getattrAgentService "_enhance_with_context"
      else
        getattrAgentService "_enhance_with_context"
    | none => getattrAgentService "_enhance_with_context"
  match tryResult with
  | Except.ok _ => Except.ok ()
  | Except.error _ => getattrTracker "record_invocation"

/-! ### Concrete instance for claim C4 -/

/-- A `ConversationMemory` with the inherited default
`input_key = output_key = None` (no construction in the repository overrides
them) and summarization disabled so no oracle is involved. -/
def c4memory : ConversationMemory :=
  { user_id := "default_user", session_id := "s1", input_key := none,
    output_key := none, memory_key := "history", max_messages := 20,
    max_tokens := none, enable_summarization := false,
    messages := [], metadata_store := [] }

lemma systemMsgs_countP_nonSystem (l : List Msg) :
    (systemMsgs l).countP (fun m => m.role != "system") = 0 := by
  refine List.countP_eq_zero.mpr ?_
  intro a ha
  have h := (List.mem_filter.mp ha).2
  simp only [beq_iff_eq] at h
  simp [h]

lemma countPrune_nonSystem_le (maxm minr : Nat) (l : List Msg)
    (h1 : 0 < minr) (h2 : minr ≤ maxm) :
    nonSystemCount (countPrune maxm minr l) ≤ maxm := by
  unfold countPrune
  split
  · unfold countPruneRebuild nonSystemCount
    rw [List.countP_append, List.countP_append, systemMsgs_countP_nonSystem]
    have htake :
        ((sortTsDesc (otherMsgs minr l)).take (keepCount maxm minr l)).countP
          (fun m => m.role != "system") ≤ maxm - (systemMsgs l).length - minr :=
      le_trans (List.countP_le_length _)
        (le_trans (List.length_take_le _ _) (min_le_right _ _))
    have hrec : (pySliceLast minr l).countP (fun m => m.role != "system") ≤ minr := by
      refine le_trans (List.countP_le_length _) ?_
      unfold pySliceLast takeLast
      rw [if_neg (by omega)]
      rw [List.length_drop]
      omega
    omega
  · exact le_trans (List.countP_le_length _) (by omega)

lemma removableIdxAux_some_bound (minr total : Nat) :
    ∀ (l : List Msg) (i j : Nat), removableIdxAux minr total i l = some j →
      j + minr < total := by
  intro l
  induction l with
  | nil => intro i j h; simp [removableIdxAux] at h
  | cons m rest ih =>
    intro i j h
    unfold removableIdxAux at h
    split at h
    · rename_i hc
      cases h
      exact hc.2
    · exact ih (i + 1) j h

lemma removableIdx_some_lt (minr : Nat) (l : List Msg) (j : Nat)
    (h : removableIdx minr l = some j) : j < l.length := by
  have := removableIdxAux_some_bound minr l.length l 0 j h
  omega

lemma tokenPruneAux_countP_le (maxT minr : Nat) (p : Msg → Bool) :
    ∀ (fuel : Nat) (l : List Msg),
      (tokenPruneAux maxT minr fuel l).countP p ≤ l.countP p := by
  intro fuel
  induction fuel with
  | zero => intro l; simp [tokenPruneAux]
  | succ fuel ih =>
    intro l
    unfold tokenPruneAux
    split
    · split
      · exact le_trans (ih _) ((List.eraseIdx_sublist l _).countP_le p)
      · exact le_refl _
    · exact le_refl _

lemma tokenPruneAux_post (maxT minr : Nat) :
    ∀ (fuel : Nat) (l : List Msg), l.length ≤ fuel →
      totalTokens (tokenPruneAux maxT minr fuel l) ≤ maxT ∨
      (tokenPruneAux maxT minr fuel l).length ≤ 1 ∨
      removableIdx minr (tokenPruneAux maxT minr fuel l) = none := by
  intro fuel
  induction fuel with
  | zero =>
    intro l hl
    right; left
    simpa [tokenPruneAux] using by omega
  | succ fuel ih =>
    intro l hl
    unfold tokenPruneAux
    split
    · rename_i hcond
      cases hr : removableIdx minr l with
      | some i =>
        dsimp only
        refine ih (l.eraseIdx i) ?_
        have hi : i < l.length := removableIdx_some_lt minr l i hr
        rw [List.length_eraseIdx]
        simp only [hi, if_true]
        omega
      | none =>
        dsimp only
        right; right
        exact hr
    · rename_i hcond
      rw [not_and_or] at hcond
      rcases hcond with h | h
      · left; omega
      · right; left; omega

lemma add_message_history (cm : ContextManager) (role content : String) :
    (cm.add_message role content).conversation_history =
      tokenPrune cm.max_tokens cm.min_recent_messages
        (countPrune cm.max_messages cm.min_recent_messages
          (cm.conversation_history ++ [cm.newMessage role content])) := rfl

/-! ### Claim C2 -/

/-- C2: after every `add_message` call (for a configuration with
`0 < min_recent_messages ≤ max_messages`, which holds for the constructor
defaults 3/20 and for every instance the repository builds), the number of
non-system turns retained is at most `max_messages`, and the total token
count is at most `max_tokens` unless fewer than 2 turns remain or no
removable (non-system, non-protected) turn exists. -/
theorem C2_prune_bounds (cm : ContextManager) (role content : String)
    (h1 : 0 < cm.min_recent_messages) (h2 : cm.min_recent_messages ≤ cm.max_messages) :
    nonSystemCount (cm.add_message role content).conversation_history ≤ cm.max_messages ∧
    (totalTokens (cm.add_message role content).conversation_history ≤ cm.max_tokens ∨
     (cm.add_message role content).conversation_history.length ≤ 1 ∨
     removableIdx cm.min_recent_messages
       (cm.add_message role content).conversation_history = none) := by
  rw [add_message_history]
  constructor
  · exact le_trans (tokenPruneAux_countP_le _ _ _ _ _)
      (countPrune_nonSystem_le _ _ _ h1 h2)
  · exact tokenPruneAux_post _ _ _ _ (le_refl _)

/-- Witness for C2 at a concrete configuration and call. -/
theorem C2_prune_bounds_witness :
    (0 < (ContextManager.init 10 2 1 (fun _ => 1)).min_recent_messages ∧
     (ContextManager.init 10 2 1 (fun _ => 1)).min_recent_messages ≤
       (ContextManager.init 10 2 1 (fun _ => 1)).max_messages) ∧
    (nonSystemCount ((ContextManager.init 10 2 1 (fun _ => 1)).add_message "user"
        "hi").conversation_history ≤ (ContextManager.init 10 2 1 (fun _ => 1)).max_messages ∧
     (totalTokens ((ContextManager.init 10 2 1 (fun _ => 1)).add_message "user"
          "hi").conversation_history ≤ (ContextManager.init 10 2 1 (fun _ => 1)).max_tokens ∨
      ((ContextManager.init 10 2 1 (fun _ => 1)).add_message "user"
          "hi").conversation_history.length ≤ 1 ∨
      removableIdx (ContextManager.init 10 2 1 (fun _ => 1)).min_recent_messages
        ((ContextManager.init 10 2 1 (fun _ => 1)).add_message "user"
          "hi").conversation_history = none)) :=
  ⟨⟨by decide, by decide⟩,
   C2_prune_bounds (ContextManager.init 10 2 1 (fun _ => 1)) "user" "hi"
     (by decide) (by decide)⟩

/-! ### Claim C3 -/

lemma takeLast_zero (l : List Msg) : takeLast 0 l = [] := by
  unfold takeLast
  simp

lemma mem_takeLast_append (m : Msg) (l₁ l₂ : List Msg) (n : Nat)
    (h : m ∈ l₂) (hlen : l₂.length ≤ n) : m ∈ takeLast n (l₁ ++ l₂) := by
  unfold takeLast
  rw [List.length_append, List.drop_append_eq_append_drop]
  refine List.mem_append_right _ ?_
  have : l₁.length + l₂.length - n - l₁.length = 0 := by omega
  rw [this, List.drop_zero]
  exact h

lemma length_takeLast_le (n : Nat) (l : List Msg) : (takeLast n l).length ≤ n := by
  unfold takeLast
  rw [List.length_drop]
  omega

lemma mem_takeLast_countPrune (maxm minr : Nat) (l : List Msg) (m : Msg)
    (h : m ∈ takeLast minr l) : m ∈ takeLast minr (countPrune maxm minr l) := by
  rcases Nat.eq_zero_or_pos minr with h0 | hpos
  · subst h0
    rw [takeLast_zero] at h
    cases h
  · unfold countPrune
    split
    · unfold countPruneRebuild pySliceLast
      rw [if_neg (by omega)]
      exact mem_takeLast_append m _ _ _ h (length_takeLast_le _ _)
    · exact h

lemma takeLast_eraseIdx (minr i : Nat) (l : List Msg) (h : i + minr < l.length) :
    takeLast minr (l.eraseIdx i) = takeLast minr l := by
  unfold takeLast
  rw [List.eraseIdx_eq_take_drop_succ]
  have hi : i < l.length := by omega
  have htake : (l.take i).length = i := List.length_take_of_le (by omega)
  rw [List.length_append, htake, List.length_drop,
    List.drop_append_eq_append_drop, htake]
  have h1 : i + (l.length - (i + 1)) - minr ≥ i := by omega
  rw [List.drop_eq_nil_of_le (by omega : (l.take i).length ≤ i + (l.length - (i + 1)) - minr)]
  rw [List.nil_append, List.drop_drop]
  congr 1
  omega

lemma tokenPruneAux_mem_takeLast (maxT minr : Nat) (m : Msg) :
    ∀ (fuel : Nat) (l : List Msg), m ∈ takeLast minr l →
      m ∈ takeLast minr (tokenPruneAux maxT minr fuel l) := by
  intro fuel
  induction fuel with
  | zero => intro l h; simpa [tokenPruneAux] using h
  | succ fuel ih =>
    intro l h
    unfold tokenPruneAux
    split
    · cases hr : removableIdx minr l with
      | some i =>
        dsimp only
        refine ih (l.eraseIdx i) ?_
        have hi : i + minr < l.length :=
          removableIdxAux_some_bound minr l.length l 0 i hr
        rw [takeLast_eraseIdx minr i l hi]
        exact h
      | none =>
        dsimp only
        exact h
    · exact h

/-- C3 counterexample: with `max_messages = 5, min_recent_messages = 3`,
after adding system "s", users u1..u5 and then a second system turn, the
turn u3 — one of the 3 most recent non-system turns at the moment of the
call — is removed, and already by the count-based pruning stage (the
protected `history[-3:]` tail is positional, so a trailing system turn
displaces a recent non-system turn out of it). -/
theorem C3_counterexample :
    (⟨"user", "u3", 3, 1⟩ : Msg) ∈
      takeLast 3 ((c3pre.conversation_history ++ [c3pre.newMessage "system" "s2"]).filter
        (fun m => m.role != "system")) ∧
    (⟨"user", "u3", 3, 1⟩ : Msg) ∉
      countPrune 5 3 (c3pre.conversation_history ++ [c3pre.newMessage "system" "s2"]) ∧
    (⟨"user", "u3", 3, 1⟩ : Msg) ∉
      (c3pre.add_message "system" "s2").conversation_history := by
  refine ⟨by decide, by decide, by decide⟩

set_option maxRecDepth 8000 in
/-- C3 amended: the most recent `min_recent_messages` turns (of any role —
the protected tail `history[-min_recent:]` is positional, not
role-filtered) are never removed by `add_message`'s pruning; and the
specific scenario holds: after adding 25 turns with `max_messages = 20`,
`min_recent_messages = 5`, exactly 20 turns are retained and the last 5
turns added are all still present. -/
theorem C3_protected_tail :
    (∀ (cm : ContextManager) (role content : String) (m : Msg),
        m ∈ takeLast cm.min_recent_messages
          (cm.conversation_history ++ [cm.newMessage role content]) →
        m ∈ (cm.add_message role content).conversation_history) ∧
    (((ContextManager.init 4500 20 5 (fun _ => 1)).addAll
        (List.replicate 25 ("user", "m"))).conversation_history.length = 20 ∧
     ((List.range 5).all (fun i =>
        ((ContextManager.init 4500 20 5 (fun _ => 1)).addAll
          (List.replicate 25 ("user", "m"))).conversation_history.contains
          { role := "user", content := "m", timestamp := 20 + i, tokens := 1 })) = true) := by
  refine ⟨?_, by decide, by decide⟩
  intro cm role content m hm
  rw [add_message_history]
  have h1 := mem_takeLast_countPrune cm.max_messages cm.min_recent_messages _ m hm
  have h2 := tokenPruneAux_mem_takeLast cm.max_tokens cm.min_recent_messages m
    (countPrune cm.max_messages cm.min_recent_messages
      (cm.conversation_history ++ [cm.newMessage role content])).length _ h1
  unfold takeLast at h2
  exact List.mem_of_mem_drop h2

/-- Witness for the universally quantified part of `C3_protected_tail`. -/
theorem C3_protected_tail_witness :
    ((⟨"user", "a", 0, 1⟩ : Msg) ∈
      takeLast (ContextManager.init 10 3 2 (fun _ => 1)).min_recent_messages
        ((ContextManager.init 10 3 2 (fun _ => 1)).conversation_history ++
          [(ContextManager.init 10 3 2 (fun _ => 1)).newMessage "user" "a"])) ∧
    (⟨"user", "a", 0, 1⟩ : Msg) ∈
      ((ContextManager.init 10 3 2 (fun _ => 1)).add_message "user"
        "a").conversation_history :=
  ⟨by decide,
   C3_protected_tail.1 (ContextManager.init 10 3 2 (fun _ => 1)) "user" "a"
     ⟨"user", "a", 0, 1⟩ (by decide)⟩

/-! ### Claim C10 -/

lemma mem_get_recent_messages (cm : ContextManager) (m : Msg)
    (h1 : m ∈ cm.conversation_history)
    (h3 : m ∈ takeLast cm.max_messages cm.conversation_history) :
    m ∈ cm.get_recent_messages := by
  unfold ContextManager.get_recent_messages pySliceLast
  split
  · rename_i h0
    have : cm.max_messages = 0 ∨ cm.conversation_history.length = 0 := by omega
    rcases this with h | h
    · rw [h, takeLast_zero] at h3
      cases h3
    · rw [List.length_eq_zero.mp h] at h1
      cases h1
  · unfold takeLast at h3 ⊢
    have heq : cm.conversation_history.length -
        min cm.max_messages cm.conversation_history.length =
        cm.conversation_history.length - cm.max_messages := by omega
    rw [heq]
    exact h3

/-- C10: with `include_recent = true`, any system-role turn lying within the
last `max_messages` entries of the history occurs at least twice in the list
`get_context` returns — once in the leading all-system block and again in
the trailing recent-messages block — so the output is not duplicate-free and
system content reappears after the summary turn. -/
theorem C10_get_context_duplicates_system (cm : ContextManager) (m : Msg)
    (include_summary : Bool)
    (h1 : m ∈ cm.conversation_history) (h2 : m.role = "system")
    (h3 : m ∈ takeLast cm.max_messages cm.conversation_history) :
    2 ≤ (cm.get_context true include_summary).count (CtxEntry.msg m) := by
  unfold ContextManager.get_context
  rw [List.count_append, List.count_append]
  have hA : 0 <
      ((cm.conversation_history.filter (fun x => x.role == "system")).map
        CtxEntry.msg).count (CtxEntry.msg m) := by
    refine List.count_pos_iff.mpr ?_
    exact List.mem_map_of_mem _ (List.mem_filter.mpr ⟨h1, by simp [h2]⟩)
  have hC : 0 <
      ((if true = true then cm.get_recent_messages.map CtxEntry.msg
        else []) : List CtxEntry).count (CtxEntry.msg m) := by
    rw [if_pos rfl]
    exact List.count_pos_iff.mpr
      (List.mem_map_of_mem _ (mem_get_recent_messages cm m h1 h3))
  omega

/-- Witness for C10: `max_messages = 3`, a system turn among the last 3. -/
theorem C10_witness :
    ((⟨"system", "s2", 2, 1⟩ : Msg) ∈
        ({ max_tokens := 100, max_messages := 3, min_recent_messages := 1,
           encoder := fun _ => 1,
           conversation_history :=
             [⟨"system", "s1", 0, 1⟩, ⟨"user", "u1", 1, 1⟩,
              ⟨"system", "s2", 2, 1⟩, ⟨"user", "u2", 3, 1⟩],
           context_summary := "", clock := 4 } : ContextManager).conversation_history ∧
      (⟨"system", "s2", 2, 1⟩ : Msg).role = "system" ∧
      (⟨"system", "s2", 2, 1⟩ : Msg) ∈ takeLast 3
        [⟨"system", "s1", 0, 1⟩, ⟨"user", "u1", 1, 1⟩,
         ⟨"system", "s2", 2, 1⟩, ⟨"user", "u2", 3, 1⟩]) ∧
    2 ≤ (({ max_tokens := 100, max_messages := 3, min_recent_messages := 1,
            encoder := fun _ => 1,
            conversation_history :=
              [⟨"system", "s1", 0, 1⟩, ⟨"user", "u1", 1, 1⟩,
               ⟨"system", "s2", 2, 1⟩, ⟨"user", "u2", 3, 1⟩],
            context_summary := "", clock := 4 } : ContextManager).get_context
          true true).count (CtxEntry.msg ⟨"system", "s2", 2, 1⟩) :=
  ⟨⟨by decide, by decide, by decide⟩,
   C10_get_context_duplicates_system _ ⟨"system", "s2", 2, 1⟩ true
     (by decide) (by decide) (by decide)⟩

set_option maxRecDepth 10000 in
/-- C6: the 3-success/1-failure scenario reports invocations=4, errors=1,
error_rate=0.25 and avg_response_time=0.2 (mean over the 3 recorded
samples); and in general error_rate = errors / max(1, invocations) and
p95_response_time is the element at index ⌊0.95·n⌋ of the sorted sample
window. -/
theorem C6_tool_metrics :
    c6state.get_tool_metrics "vector_store_search" = some c6report ∧
    (∀ (t : ToolUsageTracker) (tool : String) (r : ToolMetricsReport),
        t.get_tool_metrics tool = some r →
        r.error_rate =
          (t.errors tool : ℚ) / ((Nat.max 1 (t.invocations tool) : Nat) : ℚ) ∧
        (t.response_times tool ≠ [] →
          r.p95_response_time =
            (sortQAsc (t.response_times tool)).getD
              ((t.response_times tool).length * 95 / 100) 0)) := by
  constructor
  · with_unfolding_all decide
  · intro t tool r h
    unfold ToolUsageTracker.get_tool_metrics at h
    split at h
    · cases h
    · rw [Option.some.injEq] at h
      subst h
      refine ⟨rfl, fun hne => ?_⟩
      dsimp only
      rw [if_pos hne]

set_option maxRecDepth 10000 in
/-- Witness for `C6_tool_metrics` at the scenario state. -/
theorem C6_tool_metrics_witness :
    (c6state.get_tool_metrics "vector_store_search" = some c6report ∧
     c6state.response_times "vector_store_search" ≠ []) ∧
    (c6report.error_rate = (c6state.errors "vector_store_search" : ℚ) /
        ((Nat.max 1 (c6state.invocations "vector_store_search") : Nat) : ℚ) ∧
     c6report.p95_response_time =
       (sortQAsc (c6state.response_times "vector_store_search")).getD
         ((c6state.response_times "vector_store_search").length * 95 / 100) 0) :=
  ⟨⟨C6_tool_metrics.1, by with_unfolding_all decide⟩,
   (C6_tool_metrics.2 c6state "vector_store_search" c6report C6_tool_metrics.1).1,
   (C6_tool_metrics.2 c6state "vector_store_search" c6report C6_tool_metrics.1).2
     (by with_unfolding_all decide)⟩

/-! ### Claim C7 -/

/-- C7 counterexample: a `log_tool_use('article_recommender', …)` call whose
metadata carries an `article_id` but with NO `user_id` updates nothing — the
whole article-interaction block is nested inside `if user_id:` — so the
claimed "regardless of whether a user_id was supplied" fails: no
`ArticleMetricEntry` is created for "a1" (a fortiori `views` is not
incremented). -/
theorem C7_counterexample :
    dictGet "a1"
      ((ToolUsageTracker.init.log_tool_use "article_recommender" none true
        none none (some ⟨some "a1", some "like", some (30 : ℚ)⟩)).article_metrics)
      = none := rfl

lemma dictGet_dictSet_self [DecidableEq κ] (k : κ) (v : β) (l : List (κ × β)) :
    dictGet k (dictSet k v l) = some v := by
  induction l with
  | nil => simp [dictSet, dictGet]
  | cons p rest ih =>
    unfold dictSet
    split
    · unfold dictGet
      rw [if_pos rfl]
    · unfold dictGet
      rename_i hne
      rw [if_neg hne]
      exact ih

lemma logBasics_article (t : ToolUsageTracker) (tool : String) (success : Bool)
    (error : Option String) (rtp : Option ℚ) :
    (logBasics t tool success error rtp).article_metrics = t.article_metrics := by
  unfold logBasics
  dsimp only
  cases rtp <;> dsimp only <;> split <;> rfl

lemma logUserSide_article (t : ToolUsageTracker) (tool uid : String) (ts : Nat) :
    (logUserSide t tool uid ts).article_metrics = t.article_metrics := by
  unfold logUserSide
  dsimp only
  split <;> first | rfl | (split <;> rfl)

lemma articleInteraction_eq_spec (ts : Nat) (md : ToolMetadata) (aid : String)
    (metrics : List (String × ArticleMetricEntry))
    (haid : md.article_id = some aid) :
    articleInteraction ts md metrics =
      dictSet aid
        (specArticleUpdate ts md
          ((dictGet aid metrics).getD ArticleMetricEntry.init0)) metrics := by
  rcases md with ⟨a, ity, rts⟩
  simp only [ToolMetadata.article_id] at haid
  subst haid
  unfold articleInteraction specArticleUpdate
  dsimp only
  rcases rts with _ | rt <;> split_ifs <;> simp_all

/-- C7 amended: the described ArticleMetricEntry update (views +1,
likes/shares/saves by interaction_type, incremental running mean for
avg_read_time) happens on every `log_tool_use('article_recommender', …)`
whose metadata carries an `article_id` — provided a non-empty `user_id` was
also supplied; with no (or empty) user_id the article block is skipped. -/
theorem C7_article_update (t : ToolUsageTracker) (uid : String) (success : Bool)
    (error : Option String) (rtp : Option ℚ) (md : ToolMetadata) (aid : String)
    (huid : uid ≠ "") (haid : md.article_id = some aid) :
    dictGet aid
      ((t.log_tool_use "article_recommender" (some uid) success error rtp
        (some md)).article_metrics)
      = some (specArticleUpdate t.now md
          ((dictGet aid t.article_metrics).getD ArticleMetricEntry.init0)) := by
  have hplumb :
      (t.log_tool_use "article_recommender" (some uid) success error rtp
        (some md)).article_metrics
      = articleInteraction t.now md t.article_metrics := by
    unfold ToolUsageTracker.log_tool_use
    dsimp only
    rw [if_neg huid, if_pos rfl]
    dsimp only
    rw [logUserSide_article, logBasics_article]
  rw [hplumb, articleInteraction_eq_spec t.now md aid t.article_metrics haid]
  exact dictGet_dictSet_self aid _ t.article_metrics

/-- Witness for `C7_article_update` at a concrete tracker and call. -/
theorem C7_article_update_witness :
    (("u1" : String) ≠ "" ∧
     (ToolMetadata.mk (some "a1") (some "like") (some (30 : ℚ))).article_id
       = some "a1") ∧
    dictGet "a1"
      ((ToolUsageTracker.init.log_tool_use "article_recommender" (some "u1") true
        none none (some (ToolMetadata.mk (some "a1") (some "like")
          (some (30 : ℚ))))).article_metrics)
      = some (specArticleUpdate ToolUsageTracker.init.now
          (ToolMetadata.mk (some "a1") (some "like") (some (30 : ℚ)))
          ((dictGet "a1" ToolUsageTracker.init.article_metrics).getD
            ArticleMetricEntry.init0)) :=
  ⟨⟨by decide, rfl⟩,
   C7_article_update ToolUsageTracker.init "u1" true none none
     (ToolMetadata.mk (some "a1") (some "like") (some (30 : ℚ))) "a1"
     (by decide) rfl⟩

/-! ### Claim C8 -/

/-- C8: for any user who has logged `article_recommender` usage (which is
exactly how a view is recorded), `get_article_recommendations` with
`exclude_viewed=True` raises `AttributeError` instead of returning a list —
the viewed-set comprehension iterates the keys of the user's `tool_usage`
dict and calls `.get` on the string key `'article_recommender'`. -/
theorem C8_exclude_viewed_raises :
    ((ToolUsageTracker.init.log_tool_use "article_recommender" (some "u1") true
      none none (some ⟨some "a1", some "view", none⟩)).get_article_recommendations
      "u1" 5 true) = Except.error (PyError.attributeError "str" "get") := rfl

/-! ### Claim C5 -/

lemma mem_insertEntryDesc (x : ScoreEntry) (l : List ScoreEntry) (a : ScoreEntry)
    (h : a ∈ insertEntryDesc x l) : a = x ∨ a ∈ l := by
  induction l with
  | nil => simpa [insertEntryDesc] using h
  | cons y ys ih =>
    unfold insertEntryDesc at h
    split at h
    · rcases List.mem_cons.mp h with rfl | h'
      · exact Or.inr (List.mem_cons_self _ _)
      · rcases ih h' with rfl | h''
        · exact Or.inl rfl
        · exact Or.inr (List.mem_cons_of_mem _ h'')
    · rcases List.mem_cons.mp h with rfl | h'
      · exact Or.inl rfl
      · exact Or.inr h'

lemma insertEntryDesc_pairwise (x : ScoreEntry) (l : List ScoreEntry)
    (h : l.Pairwise (fun a b => b.score ≤ a.score)) :
    (insertEntryDesc x l).Pairwise (fun a b => b.score ≤ a.score) := by
  induction l with
  | nil => simp [insertEntryDesc]
  | cons y ys ih =>
    rw [List.pairwise_cons] at h
    obtain ⟨hy, hys⟩ := h
    unfold insertEntryDesc
    split
    · rename_i hle
      rw [List.pairwise_cons]
      refine ⟨fun a ha => ?_, ih hys⟩
      rcases mem_insertEntryDesc x ys a ha with rfl | ha'
      · exact hle
      · exact hy a ha'
    · rename_i hgt
      rw [List.pairwise_cons]
      refine ⟨fun a ha => ?_, List.pairwise_cons.mpr ⟨hy, hys⟩⟩
      rcases List.mem_cons.mp ha with rfl | ha'
      · exact le_of_not_le hgt
      · exact le_trans (hy a ha') (le_of_not_le hgt)

lemma sortEntriesDesc_pairwise (l : List ScoreEntry) :
    (sortEntriesDesc l).Pairwise (fun a b => b.score ≤ a.score) := by
  unfold sortEntriesDesc
  suffices h : ∀ (l acc : List ScoreEntry),
      acc.Pairwise (fun a b => b.score ≤ a.score) →
      (l.foldl (fun acc x => insertEntryDesc x acc) acc).Pairwise
        (fun a b => b.score ≤ a.score) by
    exact h l [] (by simp)
  intro l
  induction l with
  | nil => intro acc hacc; simpa using hacc
  | cons x xs ih => intro acc hacc; exact ih _ (insertEntryDesc_pairwise x acc hacc)

set_option maxRecDepth 10000 in
/-- C5: for base list [A, B, C] and personal list [B, D] with
`personalization_weight = 0.3`, the fused order is B > A > C > D with B
tagged source `both` and scored `base decay + 0.3 · personal decay`
(`0.9 + 0.3·1.0 = 1.2`), D scored by the weighted decay alone (`0.27`); and
in general the fused output is sorted descending by final score. -/
theorem C5_rank_fusion :
    (rank_recommendations
        [⟨1, "A", none⟩, ⟨2, "B", none⟩, ⟨3, "C", none⟩]
        [⟨2, "B", none⟩, ⟨4, "D", none⟩] (3 / 10)
      = [⟨"B", "Unknown", 6/5, "general", "both"⟩,
         ⟨"A", "Unknown", 1, "general", "base"⟩,
         ⟨"C", "Unknown", 4/5, "general", "base"⟩,
         ⟨"D", "Unknown", 27/100, "general", "personal"⟩]) ∧
    ((rank_recommendations
        [⟨1, "A", none⟩, ⟨2, "B", none⟩, ⟨3, "C", none⟩]
        [⟨2, "B", none⟩, ⟨4, "D", none⟩] (3 / 10)).head?.map
          (fun r => r.relevance_score)
      = some ((1 - (1 : ℚ) * (1 / 10)) + (3 / 10) * (1 - (0 : ℚ) * (1 / 10)))) ∧
    (∀ (base personal : List Doc) (w : ℚ),
      (rank_recommendations base personal w).Pairwise
        (fun a b => b.relevance_score ≤ a.relevance_score)) := by
  refine ⟨by with_unfolding_all decide, by with_unfolding_all decide, ?_⟩
  intro base personal w
  unfold rank_recommendations
  refine List.Pairwise.map _ (fun a b h => h) ?_
  exact sortEntriesDesc_pairwise _

/-- C4 fails on the code: `save_context({"input": "hi"}, {"output":
"hello"})` appends two chat messages (via the parent class) but appends NO
metadata entries, because `inputs.get(self.input_key, "")` with the default
`input_key = None` always evaluates to the falsy `""` (the dict is
str-keyed), and likewise for the AI side — so `len(messages) = 2 ≠ 0 =
len(metadata_store)` after one call. -/
theorem C4_metadata_parity_broken :
    (c4memory.save_context (fun l => l) none [("input", "hi")]
      [("output", "hello")]).map
      (fun m => (m.messages.length, m.metadata_store.length))
    = Except.ok (2, 0) := rfl

/-! ### Claim C9 -/

/-- C9 fails on the code: `switch_session` constructs
`ConversationMemory(user_id, session_id, memory_key="chat_history",
return_messages=True)` with no `persist_dir`, so `history_file` keeps its
`None` default and `_load_history`'s unguarded `self.history_file.exists()`
raises `AttributeError: 'NoneType' object has no attribute 'exists'`; the
active memory reference is never repointed, for every session id. -/
theorem C9_switch_session_raises (user_id session_id : String) :
    AgentService.switch_session user_id session_id
    = Except.error (PyError.attributeError "NoneType" "exists") := rfl

/-! ### Claim C1 -/

/-- C1 fails on the code: for every input carrying a message, the try block
of `invoke` raises (`self._enhance_with_context` is not defined anywhere —
and a requested session switch raises even earlier), and the `except`
handler's first statement evaluates `self.usage_tracker.record_invocation`,
a method `ToolUsageTracker` does not define, so an `AttributeError`
propagates out of `invoke` instead of the structured error response. -/
theorem C1_invoke_raises (user_id mem_session msg : String)
    (sid : Option String) :
    AgentService.invoke user_id mem_session ⟨some msg, sid⟩
    = Except.error (PyError.attributeError "ToolUsageTracker"
        "record_invocation") := by
  unfold AgentService.invoke
  cases sid with
  | none => rfl
  | some s =>
    dsimp only
    by_cases h : s ≠ mem_session
    · rw [if_pos h]; rfl
    · rw [if_neg h]; rfl

end Ayurveda
